import Mathlib

/-!
# Resynthesizer GIMP plug-in: the `run` adapter of `src/resynthesizer.c`

A shallow embedding of `count_color_channels`, `equal_basetypes`,
`detach_drawables`, the `ERROR_RETURN` macro and `run`.

Conventions of the embedding
* The host (libgimp, the parameter readers of `resynth-parameters.h`, the
  adaption of `adaptGimp.h`, the `engine` of `engine.h`) is not part of this
  file of the repository; whatever `run` reads from it is a field of `Env`.
* `run` is the build the file gives as it stands: `DEBUG` and `ANIMATE` are
  commented out, and the `#else` branch of `#ifdef ADAPT_SIMPLE` (the plug-in
  proper; the other branch is the test harness) is the one embedded.
* `G_DISABLE_ASSERT` is commented out in the file, but the comment above it says
  the build may define it; it is the field `Env.G_DISABLE_ASSERT`.  A failing
  `g_assert` ends the process: `Ending.assertion_failed`.
* Strings pass through the i18n macro `_( )` of `plugin-intl.h`.  The catalogue
  is unknown, so a translated string is kept symbolically as `gettext msgid`.
* Every drawable id handed to `gimp_drawable_get` names a live drawable
  (the call does not return NULL).
* The C operands of `==` in `equal_basetypes` are evaluated left to right.
* Calls that `run` makes are recorded, in order, in `State.trace`.
-/

namespace Resynthesizer

/-- GimpImageType of libgimp. -/
inductive GimpImageType
  | GIMP_RGB_IMAGE
  | GIMP_RGBA_IMAGE
  | GIMP_GRAY_IMAGE
  | GIMP_GRAYA_IMAGE
  | GIMP_INDEXED_IMAGE
  | GIMP_INDEXEDA_IMAGE
  deriving DecidableEq, Repr

/-- GimpPDBStatusType of libgimp. -/
inductive GimpPDBStatusType
  | GIMP_PDB_EXECUTION_ERROR
  | GIMP_PDB_CALLING_ERROR
  | GIMP_PDB_PASS_THROUGH
  | GIMP_PDB_SUCCESS
  | GIMP_PDB_CANCEL
  deriving DecidableEq, Repr

/-- GimpRunMode values of libgimp, as found in `param[0].data.d_int32`. -/
def GIMP_RUN_INTERACTIVE : Int := 0

/-- Second value of GimpRunMode. -/
def GIMP_RUN_NONINTERACTIVE : Int := 1

/-- Third value of GimpRunMode. -/
def GIMP_RUN_WITH_LAST_VALS : Int := 2

/-- The fields of the GimpDrawable of libgimp that `run` reads. -/
structure GimpDrawable where
  drawable_id : Int
  width : Nat
  height : Nat
  deriving DecidableEq, Repr

/-- The struct `Parameters` of `engineParams.h`: the four fields `run` reads or
writes; `settings` stands for all the others (tiling flags, weights, ...), which
`run` only passes on. -/
structure Parameters where
  corpus_id : Int
  input_map_id : Int
  output_map_id : Int
  neighbours : Int
  settings : Nat
  deriving DecidableEq, Repr

/-- The fields of `Map` (`map.h`) that `run` reads, both `guint`. -/
structure Map where
  width : Nat
  height : Nat
  deriving DecidableEq, Repr

/-- A string produced by the i18n macro `_( )`: the translation of `msgid`. -/
structure Translated where
  msgid : String
  deriving DecidableEq, Repr

/-- The macro `_( )` applied to a literal. -/
def gettext (msgid : String) : Translated := ⟨msgid⟩

/-- What `run` obtains from outside this file. -/
structure Env where
  /-- The value of `param[0].data.d_int32`. -/
  run_mode : Int
  /-- The value of `param[2].data.d_drawable`. -/
  param2_d_drawable : Int
  gimp_drawable_type : Int → GimpImageType
  gimp_drawable_width : Int → Nat
  gimp_drawable_height : Int → Nat
  /-- Result and written `parameters` of `get_last_parameters`, per drawable id. -/
  get_last_parameters : Int → Bool × Parameters
  /-- Result and written `parameters` of `get_parameters_from_list`. -/
  get_parameters_from_list : Bool × Parameters
  /-- Content of the local `parameters` before anything is written to it. -/
  uninitialized_parameters : Parameters
  /-- The global `image` after `fetch_image_mask_map`. -/
  image : Map
  /-- The global `corpus` after `fetch_image_mask_map`. -/
  corpus : Map
  /-- The `int` that `engine(parameters)` returns. -/
  engine : Parameters → Int
  /-- Constant of `resynth-constants.h`. -/
  RESYNTH_MAX_NEIGHBORS : Int
  /-- Whether the build defines `G_DISABLE_ASSERT`. -/
  G_DISABLE_ASSERT : Bool

/-- Calls made by `run`, as recorded in the trace. -/
inductive Event
  | gimp_drawable_get (drawable_id : Int)
  | count_color_channels (drawable_id : Int) (ty : GimpImageType)
  | get_last_parameters
  | get_parameters_from_list
  | gimp_message
  | gimp_drawable_detach (drawable_id : Int)
  | g_debug (message : Translated)
  | prepareImageFormatIndices (with_map : Bool)
  | fetch_image_mask_map (drawable_id : Int) (map_id : Option Int)
  | free_map
  | engine (parameters : Parameters)
  | post_results_to_gimp (drawable_id : Int)
  | gimp_progress_end
  deriving DecidableEq, Repr

/-- The out-parameters and locals of `run`. A pointer is `none` when NULL;
`with_map` is `none` until line 317 assigns it; `d_string` is what this call wrote to
`values[1].data.d_string`, which counts as a return value only when `nreturn_vals` is 2. -/
structure State where
  nreturn_vals : Nat
  d_status : GimpPDBStatusType
  d_string : Option Translated
  drawable : Option GimpDrawable
  corpus_drawable : Option GimpDrawable
  map_in_drawable : Option GimpDrawable
  map_out_drawable : Option GimpDrawable
  with_map : Option Bool
  trace : List Event
  deriving DecidableEq, Repr

/-- How a call of `run` ends. -/
inductive Ending
  | returned
  | assertion_failed
  deriving DecidableEq, Repr

/-- The end of a call of `run` and the state it leaves. -/
structure Outcome where
  ending : Ending
  state : State
  deriving DecidableEq, Repr

/-- libgimp: the drawable record of an id. -/
def gimp_drawable_get (e : Env) (drawable_id : Int) : GimpDrawable :=
  { drawable_id := drawable_id,
    width := e.gimp_drawable_width drawable_id,
    height := e.gimp_drawable_height drawable_id }

/-- libgimp: whether the drawable is of an RGB type. -/
def gimp_drawable_is_rgb (e : Env) (drawable_id : Int) : Bool :=
  match e.gimp_drawable_type drawable_id with
  | .GIMP_RGB_IMAGE => true
  | .GIMP_RGBA_IMAGE => true
  | _ => false

/-- libgimp: whether the drawable is of a grayscale type. -/
def gimp_drawable_is_gray (e : Env) (drawable_id : Int) : Bool :=
  match e.gimp_drawable_type drawable_id with
  | .GIMP_GRAY_IMAGE => true
  | .GIMP_GRAYA_IMAGE => true
  | _ => false

/-- Lines 150-166. `none` is the failing `g_assert(FALSE)` of the default branch;
with `G_DISABLE_ASSERT` the default branch falls through to `return 0`. -/
def count_color_channels (e : Env) (drawable : GimpDrawable) : Option Nat :=
  match e.gimp_drawable_type drawable.drawable_id with
  | .GIMP_RGB_IMAGE => some 3
  | .GIMP_RGBA_IMAGE => some 3
  | .GIMP_GRAY_IMAGE => some 1
  | .GIMP_GRAYA_IMAGE => some 1
  | _ => if e.G_DISABLE_ASSERT then some 0 else none

/-- The trace entry of one call of `count_color_channels`. -/
def count_color_channels_call (e : Env) (drawable : GimpDrawable) : Event :=
  .count_color_channels drawable.drawable_id (e.gimp_drawable_type drawable.drawable_id)

/-- Lines 174-182. `none` when one of the two counts asserts. -/
def equal_basetypes (e : Env) (first_drawable second_drawable : GimpDrawable) : Option Bool :=
  match count_color_channels e first_drawable with
  | none => none
  | some a =>
    match count_color_channels e second_drawable with
    | none => none
    | some b => some (decide (a = b))

/-- The calls of `count_color_channels` that `equal_basetypes` makes. -/
def equal_basetypes_calls (e : Env) (first_drawable second_drawable : GimpDrawable) :
    List Event :=
  match count_color_channels e first_drawable with
  | none => [count_color_channels_call e first_drawable]
  | some _ => [count_color_channels_call e first_drawable,
               count_color_channels_call e second_drawable]

/-- One `if (p) gimp_drawable_detach(p);` of `detach_drawables`. -/
def detach_if (p : Option GimpDrawable) : List Event :=
  match p with
  | some d => [.gimp_drawable_detach d.drawable_id]
  | none => []

/-- Lines 202-218. -/
def detach_drawables (out in_ out_map in_map : Option GimpDrawable) : List Event :=
  detach_if out ++ detach_if in_ ++ detach_if out_map ++ detach_if in_map

/-- The macro of lines 122-129, in the scope of the locals of `run`. -/
def ERROR_RETURN (s : State) (message : Translated) : Outcome :=
  { ending := .returned,
    state := { s with
      nreturn_vals := 2,
      d_string := some message,
      trace := s.trace
        ++ detach_drawables s.drawable s.corpus_drawable s.map_in_drawable s.map_out_drawable
        ++ [.g_debug message] } }

/-- A `g_assert` whose condition is false: the process ends where it stands. -/
def g_assert_failed (s : State) : Outcome :=
  { ending := .assertion_failed, state := s }

/-- Lines 277-292: the `switch` on the run mode. Gives `ok`, the content of
`parameters` afterwards, and the calls made. -/
def deal_with_run_mode (e : Env) (drawable : GimpDrawable) : Bool × Parameters × List Event :=
  if e.run_mode = GIMP_RUN_INTERACTIVE then
    ((e.get_last_parameters drawable.drawable_id).1,
     (e.get_last_parameters drawable.drawable_id).2,
     [.get_last_parameters, .gimp_message])
  else if e.run_mode = GIMP_RUN_NONINTERACTIVE then
    (e.get_parameters_from_list.1, e.get_parameters_from_list.2, [.get_parameters_from_list])
  else if e.run_mode = GIMP_RUN_WITH_LAST_VALS then
    ((e.get_last_parameters drawable.drawable_id).1,
     (e.get_last_parameters drawable.drawable_id).2,
     [.get_last_parameters])
  else
    (false, e.uninitialized_parameters, [])

/-- Lines 299-301. -/
def limit_neighbours (e : Env) (parameters : Parameters) : Parameters :=
  if parameters.neighbours > e.RESYNTH_MAX_NEIGHBORS then
    { parameters with neighbours := e.RESYNTH_MAX_NEIGHBORS }
  else parameters

/-- The condition of `g_assert(m.width * m.height)`, a `guint` product. -/
def g_assert_not_empty (e : Env) (m : Map) : Bool :=
  e.G_DISABLE_ASSERT || decide ((m.width * m.height) % 2 ^ 32 ≠ 0)

/-- Lines 346-425 of `run`: adaption, the engine, and the postlude. -/
def run_from_adaption (e : Env) (s : State) (parameters : Parameters) (with_map : Bool)
    (drawable corpus_drawable : GimpDrawable) : Outcome :=
  let s6 : State := { s with trace := s.trace ++
    [.prepareImageFormatIndices with_map,
     .fetch_image_mask_map drawable.drawable_id (s.map_out_drawable.map (·.drawable_id)),
     .fetch_image_mask_map corpus_drawable.drawable_id (s.map_in_drawable.map (·.drawable_id)),
     .free_map] }
  if !g_assert_not_empty e e.image then g_assert_failed s6
  else if !g_assert_not_empty e e.corpus then g_assert_failed s6
  else
    let result := e.engine parameters
    let s7 : State := { s6 with trace := s6.trace ++ [.engine parameters] }
    if result = 1 then
      ERROR_RETURN s7 (gettext
        "The texture source is empty. Does any selection include non-transparent pixels?")
    else if result = 2 then
      ERROR_RETURN s7 (gettext
        "The output layer is empty. Does any selection have visible pixels in the active layer?")
    else
      { ending := .returned,
        state := { s7 with
          d_status := .GIMP_PDB_SUCCESS,
          trace := s7.trace ++ [.post_results_to_gimp drawable.drawable_id]
            ++ detach_drawables s7.drawable s7.corpus_drawable
                 s7.map_in_drawable s7.map_out_drawable
            ++ [.gimp_progress_end] } }

/-- Lines 322-344 of `run`, the branch `if (with_map)`, then the rest. -/
def run_with_map (e : Env) (s : State) (parameters : Parameters)
    (drawable corpus_drawable : GimpDrawable) : Outcome :=
  let map_in_drawable := gimp_drawable_get e parameters.input_map_id
  let map_out_drawable := gimp_drawable_get e parameters.output_map_id
  let s5 : State := { s with
    map_in_drawable := some map_in_drawable,
    map_out_drawable := some map_out_drawable,
    trace := s.trace ++
      [.gimp_drawable_get parameters.input_map_id, .gimp_drawable_get parameters.output_map_id]
      ++ equal_basetypes_calls e map_in_drawable map_out_drawable }
  match equal_basetypes e map_in_drawable map_out_drawable with
  | none => g_assert_failed s5
  | some false =>
    ERROR_RETURN s5 (gettext "The input and output maps must have the same mode")
  | some true =>
    if map_in_drawable.width ≠ corpus_drawable.width
        ∨ map_in_drawable.height ≠ corpus_drawable.height then
      ERROR_RETURN s5 (gettext
        "The input map should be the same size as the input texture image")
    else if map_out_drawable.width ≠ drawable.width
        ∨ map_out_drawable.height ≠ drawable.height then
      ERROR_RETURN s5 (gettext "The output map should be the same size as the output image")
    else
      run_from_adaption e s5 parameters true drawable corpus_drawable

/-- Lines 233-425: the plug-in main. -/
def run (e : Env) : Outcome :=
  let drawable := gimp_drawable_get e e.param2_d_drawable
  let s1 : State :=
    { nreturn_vals := 1,
      d_status := .GIMP_PDB_EXECUTION_ERROR,
      d_string := none,
      drawable := some drawable,
      corpus_drawable := none,
      map_in_drawable := none,
      map_out_drawable := none,
      with_map := none,
      trace := [.gimp_drawable_get e.param2_d_drawable] }
  if (!gimp_drawable_is_rgb e drawable.drawable_id
      && !gimp_drawable_is_gray e drawable.drawable_id) then
    ERROR_RETURN s1 (gettext "Incompatible image mode.")
  else
    let got := deal_with_run_mode e drawable
    let s2 : State := { s1 with trace := s1.trace ++ got.2.2 }
    if !got.1 then
      ERROR_RETURN s2 (gettext "Resynthesizer failed to get parameters.")
    else
      let parameters := limit_neighbours e got.2.1
      let corpus_drawable := gimp_drawable_get e parameters.corpus_id
      let s3 : State := { s2 with
        corpus_drawable := some corpus_drawable,
        trace := s2.trace ++ [.gimp_drawable_get parameters.corpus_id]
          ++ equal_basetypes_calls e drawable corpus_drawable }
      match equal_basetypes e drawable corpus_drawable with
      | none => g_assert_failed s3
      | some false =>
        ERROR_RETURN s3 (gettext
          "The input texture and output image must have the same number of color channels.")
      | some true =>
        let with_map :=
          decide (parameters.input_map_id ≠ -1) && decide (parameters.output_map_id ≠ -1)
        let s4 : State := { s3 with
          with_map := some with_map, map_in_drawable := none, map_out_drawable := none }
        if with_map then
          run_with_map e s4 parameters drawable corpus_drawable
        else
          run_from_adaption e s4 parameters false drawable corpus_drawable


/-! ## Vocabulary for stating the properties -/

/-- The entries of a trace selected by `f`, in order. -/
def calls {α : Type} (f : Event → Option α) (t : List Event) : List α := t.filterMap f

/-- The argument of a call of `engine`. -/
def Event.engine_parameters : Event → Option Parameters
  | .engine p => some p
  | _ => none

/-- The id given to a call of `gimp_drawable_get`. -/
def Event.fetched_id : Event → Option Int
  | .gimp_drawable_get id => some id
  | _ => none

/-- The drawable id and the type read by a call of `count_color_channels`. -/
def Event.counted : Event → Option (Int × GimpImageType)
  | .count_color_channels id ty => some (id, ty)
  | _ => none

/-- The `with_map` argument of a call of `prepareImageFormatIndices` (line 366). -/
def Event.adaption_flag : Event → Option Bool
  | .prepareImageFormatIndices w => some w
  | _ => none

/-- The parameters the engine was called with, one entry per call. -/
def engine_calls (t : List Event) : List Parameters := calls Event.engine_parameters t

/-- The ids of the drawables fetched with `gimp_drawable_get`. -/
def gimp_drawable_get_calls (t : List Event) : List Int := calls Event.fetched_id t

/-- The calls of `count_color_channels`: drawable id and the type found. -/
def count_color_channels_calls (t : List Event) : List (Int × GimpImageType) :=
  calls Event.counted t

/-- One entry per time the run went past validation into the adaption of line 366. -/
def adaption_calls (t : List Event) : List Bool := calls Event.adaption_flag t

/-- The four types `count_color_channels` has a case for. -/
def rgb_or_gray (ty : GimpImageType) : Prop :=
  ty = .GIMP_RGB_IMAGE ∨ ty = .GIMP_RGBA_IMAGE ∨ ty = .GIMP_GRAY_IMAGE ∨ ty = .GIMP_GRAYA_IMAGE

/-- The type without its alpha channel. -/
def without_alpha : GimpImageType → GimpImageType
  | .GIMP_RGBA_IMAGE => .GIMP_RGB_IMAGE
  | .GIMP_GRAYA_IMAGE => .GIMP_GRAY_IMAGE
  | .GIMP_INDEXEDA_IMAGE => .GIMP_INDEXED_IMAGE
  | ty => ty

/-- The target drawable (line 267). -/
def target (e : Env) : GimpDrawable := gimp_drawable_get e e.param2_d_drawable

/-- The parameters as obtained by the switch on the run mode. -/
def obtained (e : Env) : Parameters := (deal_with_run_mode e (target e)).2.1

/-- The parameters after line 301, the value `engine` is called with. -/
def handed (e : Env) : Parameters := limit_neighbours e (obtained e)

/-- The corpus drawable (line 305). -/
def corpus_of (e : Env) : GimpDrawable := gimp_drawable_get e (handed e).corpus_id

/-- The input map drawable (line 324). -/
def map_in_of (e : Env) : GimpDrawable := gimp_drawable_get e (handed e).input_map_id

/-- The output map drawable (line 325). -/
def map_out_of (e : Env) : GimpDrawable := gimp_drawable_get e (handed e).output_map_id

/-- The image-mode check of lines 270-271 passes. -/
def mode_ok (e : Env) : Prop :=
  gimp_drawable_is_rgb e (target e).drawable_id = true
    ∨ gimp_drawable_is_gray e (target e).drawable_id = true

/-- Parameters were obtained: `ok` is true at line 294. -/
def params_ok (e : Env) : Prop := (deal_with_run_mode e (target e)).1 = true

/-- The colour-channel check of line 311 passes. -/
def channels_ok (e : Env) : Prop := equal_basetypes e (target e) (corpus_of e) = some true

/-- Both map ids differ from -1. -/
def wants_map (e : Env) : Prop :=
  (handed e).input_map_id ≠ -1 ∧ (handed e).output_map_id ≠ -1

/-- The value of `with_map` at line 317. -/
def with_map_of (e : Env) : Bool :=
  decide ((handed e).input_map_id ≠ -1) && decide ((handed e).output_map_id ≠ -1)

/-- The input map has the size of the corpus. -/
def map_in_fits (e : Env) : Prop :=
  (map_in_of e).width = (corpus_of e).width ∧ (map_in_of e).height = (corpus_of e).height

/-- The output map has the size of the target. -/
def map_out_fits (e : Env) : Prop :=
  (map_out_of e).width = (target e).width ∧ (map_out_of e).height = (target e).height

/-- The three map checks of lines 329-343 pass. -/
def maps_ok (e : Env) : Prop :=
  equal_basetypes e (map_in_of e) (map_out_of e) = some true ∧ map_in_fits e ∧ map_out_fits e

/-- Every validation check of lines 269-344 passes. -/
def all_checks_pass (e : Env) : Prop :=
  mode_ok e ∧ params_ok e ∧ channels_ok e ∧ (wants_map e → maps_ok e)

/-- The two assertions of lines 380-381 hold (or are compiled out). -/
def adaption_asserts_hold (e : Env) : Prop :=
  g_assert_not_empty e e.image = true ∧ g_assert_not_empty e e.corpus = true

instance (e : Env) : Decidable (mode_ok e) := by unfold mode_ok; infer_instance

instance (e : Env) : Decidable (params_ok e) := by unfold params_ok; infer_instance

instance (e : Env) : Decidable (channels_ok e) := by unfold channels_ok; infer_instance

instance (e : Env) : Decidable (wants_map e) := by unfold wants_map; infer_instance

instance (e : Env) : Decidable (map_in_fits e) := by unfold map_in_fits; infer_instance

instance (e : Env) : Decidable (map_out_fits e) := by unfold map_out_fits; infer_instance

instance (e : Env) : Decidable (maps_ok e) := by unfold maps_ok; infer_instance

instance (e : Env) : Decidable (all_checks_pass e) := by unfold all_checks_pass; infer_instance

instance (e : Env) : Decidable (adaption_asserts_hold e) := by
  unfold adaption_asserts_hold; infer_instance

instance (ty : GimpImageType) : Decidable (rgb_or_gray ty) := by
  unfold rgb_or_gray; infer_instance

/-! ### The state of `run` at the lines where it can leave -/

/-- State after line 267. -/
def state_267 (e : Env) : State :=
  { nreturn_vals := 1, d_status := .GIMP_PDB_EXECUTION_ERROR, d_string := none,
    drawable := some (target e), corpus_drawable := none, map_in_drawable := none,
    map_out_drawable := none, with_map := none,
    trace := [.gimp_drawable_get e.param2_d_drawable] }

/-- State after the switch that ends at line 292. -/
def state_292 (e : Env) : State :=
  { state_267 e with
    trace := (state_267 e).trace ++ (deal_with_run_mode e (target e)).2.2 }

/-- State once `equal_basetypes` of line 311 has been evaluated. -/
def state_311 (e : Env) : State :=
  { state_292 e with
    corpus_drawable := some (corpus_of e),
    trace := (state_292 e).trace ++ [.gimp_drawable_get (handed e).corpus_id]
      ++ equal_basetypes_calls e (target e) (corpus_of e) }

/-- State after line 320. -/
def state_320 (e : Env) : State :=
  { state_311 e with with_map := some (with_map_of e) }

/-- State once `equal_basetypes` of line 329 has been evaluated. -/
def state_329 (e : Env) : State :=
  { state_320 e with
    map_in_drawable := some (map_in_of e),
    map_out_drawable := some (map_out_of e),
    trace := (state_320 e).trace ++
      [.gimp_drawable_get (handed e).input_map_id, .gimp_drawable_get (handed e).output_map_id]
      ++ equal_basetypes_calls e (map_in_of e) (map_out_of e) }

/-- State after the adaption of lines 366-375, from state `s`. -/
def state_375 (s : State) (with_map : Bool) (drawable corpus_drawable : GimpDrawable) : State :=
  { s with trace := s.trace ++
    [.prepareImageFormatIndices with_map,
     .fetch_image_mask_map drawable.drawable_id (s.map_out_drawable.map (·.drawable_id)),
     .fetch_image_mask_map corpus_drawable.drawable_id (s.map_in_drawable.map (·.drawable_id)),
     .free_map] }

/-- State after the call of `engine` at line 384. -/
def state_384 (s : State) (parameters : Parameters) (with_map : Bool)
    (drawable corpus_drawable : GimpDrawable) : State :=
  { state_375 s with_map drawable corpus_drawable with
    trace := (state_375 s with_map drawable corpus_drawable).trace ++ [.engine parameters] }

/-- The outcome of a run that reaches line 425. -/
def success (s : State) (parameters : Parameters) (with_map : Bool)
    (drawable corpus_drawable : GimpDrawable) : Outcome :=
  { ending := .returned,
    state := { state_384 s parameters with_map drawable corpus_drawable with
      d_status := .GIMP_PDB_SUCCESS,
      trace := (state_384 s parameters with_map drawable corpus_drawable).trace
        ++ [.post_results_to_gimp drawable.drawable_id]
        ++ detach_drawables s.drawable s.corpus_drawable s.map_in_drawable s.map_out_drawable
        ++ [.gimp_progress_end] } }

/-! ### The messages -/

/-- Message of line 273. -/
def msg_mode : Translated := gettext "Incompatible image mode."

/-- Message of line 296. -/
def msg_parameters : Translated := gettext "Resynthesizer failed to get parameters."

/-- Message of line 313. -/
def msg_channels : Translated := gettext
  "The input texture and output image must have the same number of color channels."

/-- Message of line 332. -/
def msg_map_mode : Translated := gettext "The input and output maps must have the same mode"

/-- Message of line 337. -/
def msg_map_in_size : Translated := gettext
  "The input map should be the same size as the input texture image"

/-- Message of line 342. -/
def msg_map_out_size : Translated := gettext
  "The output map should be the same size as the output image"

/-- Message of line 388. -/
def msg_empty_corpus : Translated := gettext
  "The texture source is empty. Does any selection include non-transparent pixels?"

/-- Message of line 392. -/
def msg_empty_target : Translated := gettext
  "The output layer is empty. Does any selection have visible pixels in the active layer?"

/-! ### The validation checks in the order the specification lists them -/

/-- The result of each validation check, in the listed order, with its message: `some true`
when it passes, `some false` when it fails, `none` when evaluating it ends in the assertion
of `count_color_channels`. The three map checks pass when no map pair is given. -/
def validation_checks (e : Env) : List (Option Bool × Translated) :=
  [ (some (decide (mode_ok e)), msg_mode),
    (some (decide (params_ok e)), msg_parameters),
    (equal_basetypes e (target e) (corpus_of e), msg_channels),
    (if with_map_of e then equal_basetypes e (map_in_of e) (map_out_of e) else some true,
      msg_map_mode),
    (some (!with_map_of e || decide (map_in_fits e)), msg_map_in_size),
    (some (!with_map_of e || decide (map_out_fits e)), msg_map_out_size) ]

/-- The message of the earliest check that fails; `none` when none fails before the list
ends or before a check that cannot be evaluated. -/
def first_failing : List (Option Bool × Translated) → Option Translated
  | [] => none
  | (some true, _) :: rest => first_failing rest
  | (some false, m) :: _ => some m
  | (none, _) :: _ => none

/-! ### The engine -/

/-- Modelled from the spec: `engine` (declared in `engine.h`, not in this file) ends in
success or in one of the two errors EmptyCorpus and EmptyTarget, that is, it returns 0, 1
or 2; the comment of line 394, "else must be 0, success", relies on the same. -/
def engine_contract (e : Env) : Prop :=
  ∀ p, e.engine p = 0 ∨ e.engine p = 1 ∨ e.engine p = 2

/-! ### Concrete calls -/

/-- A non-interactive call on an RGB target 10 (4x4) with the RGBA corpus 11 (4x4), no maps,
`neighbours` 100 against a maximum of 64, and an engine that succeeds. -/
def env_plain : Env :=
  { run_mode := 1,
    param2_d_drawable := 10,
    gimp_drawable_type := fun id => if id = 11 then .GIMP_RGBA_IMAGE else .GIMP_RGB_IMAGE,
    gimp_drawable_width := fun _ => 4,
    gimp_drawable_height := fun _ => 4,
    get_last_parameters := fun _ => (false, ⟨0, 0, 0, 0, 0⟩),
    get_parameters_from_list := (true, ⟨11, -1, -1, 100, 7⟩),
    uninitialized_parameters := ⟨0, 0, 0, 0, 0⟩,
    image := ⟨4, 4⟩,
    corpus := ⟨4, 4⟩,
    engine := fun _ => 0,
    RESYNTH_MAX_NEIGHBORS := 64,
    G_DISABLE_ASSERT := false }

/-- The parameters `env_plain` obtains. -/
def params_plain : Parameters := ⟨11, -1, -1, 100, 7⟩

/-- The parameters `env_plain` hands to the engine. -/
def params_plain_limited : Parameters := ⟨11, -1, -1, 64, 7⟩

/-- As `env_plain`, with an engine that reports an empty corpus. -/
def env_empty_corpus : Env := { env_plain with engine := fun _ => 1 }

/-- As `env_plain`, with an engine that reports an empty target. -/
def env_empty_target : Env := { env_plain with engine := fun _ => 2 }

/-- As `env_plain`, with a grayscale corpus. -/
def env_gray_corpus : Env :=
  { env_plain with
    gimp_drawable_type := fun id => if id = 11 then .GIMP_GRAY_IMAGE else .GIMP_RGB_IMAGE }

/-- As `env_plain`, with an engine whose result is 3. -/
def env_engine_3 : Env := { env_plain with engine := fun _ => 3 }

/-- As `env_plain`, with an input map 12 and no output map. -/
def env_one_map : Env :=
  { env_plain with get_parameters_from_list := (true, ⟨11, 12, -1, 30, 7⟩) }

/-- As `env_plain`, with the corpus 11 of type INDEXED. -/
def env_indexed_corpus : Env :=
  { env_plain with
    gimp_drawable_type := fun id => if id = 11 then .GIMP_INDEXED_IMAGE else .GIMP_RGB_IMAGE }

/-- As `env_indexed_corpus`, in a build that defines `G_DISABLE_ASSERT`. -/
def env_indexed_corpus_release : Env := { env_indexed_corpus with G_DISABLE_ASSERT := true }

/-- RGB target 10 (4x4), RGBA corpus 11 (4x4), input map 12 of type INDEXED and size 8x8,
output map 13 of type RGB and size 4x4. -/
def env_indexed_input_map : Env :=
  { env_plain with
    gimp_drawable_type := fun id =>
      if id = 11 then .GIMP_RGBA_IMAGE else if id = 12 then .GIMP_INDEXED_IMAGE
      else .GIMP_RGB_IMAGE,
    gimp_drawable_width := fun id => if id = 12 then 8 else 4,
    gimp_drawable_height := fun id => if id = 12 then 8 else 4,
    get_parameters_from_list := (true, ⟨11, 12, 13, 30, 7⟩) }

/-- As `env_indexed_input_map`, in a build that defines `G_DISABLE_ASSERT`. -/
def env_indexed_input_map_release : Env :=
  { env_indexed_input_map with G_DISABLE_ASSERT := true }

/-- RGB target 10 (4x4), RGBA corpus 11 (4x4), input map 12 of type GRAY and size 8x8,
output map 13 of type INDEXED and size 4x4. -/
def env_maps_differ : Env :=
  { env_plain with
    gimp_drawable_type := fun id =>
      if id = 11 then .GIMP_RGBA_IMAGE else if id = 12 then .GIMP_GRAY_IMAGE
      else if id = 13 then .GIMP_INDEXED_IMAGE else .GIMP_RGB_IMAGE,
    gimp_drawable_width := fun id => if id = 12 then 8 else 4,
    gimp_drawable_height := fun id => if id = 12 then 8 else 4,
    get_parameters_from_list := (true, ⟨11, 12, 13, 30, 7⟩) }

/-- As `env_maps_differ`, in a build that defines `G_DISABLE_ASSERT`. -/
def env_maps_differ_release : Env := { env_maps_differ with G_DISABLE_ASSERT := true }

/-! ## Traces -/

theorem calls_nil {α : Type} (f : Event → Option α) : calls f [] = [] := rfl

theorem calls_cons {α : Type} (f : Event → Option α) (ev : Event) (t : List Event) :
    calls f (ev :: t) = (f ev).toList ++ calls f t := by
  cases h : f ev <;> simp [calls, List.filterMap_cons, h]

theorem calls_append {α : Type} (f : Event → Option α) (s t : List Event) :
    calls f (s ++ t) = calls f s ++ calls f t := by
  simp [calls]

theorem calls_detach_drawables {α : Type} (f : Event → Option α)
    (hf : ∀ id, f (.gimp_drawable_detach id) = none) (a b c d : Option GimpDrawable) :
    calls f (detach_drawables a b c d) = [] := by
  cases a <;> cases b <;> cases c <;> cases d <;>
    simp [detach_drawables, detach_if, calls_cons, calls_nil, hf]

theorem calls_equal_basetypes_calls {α : Type} (f : Event → Option α)
    (hf : ∀ id ty, f (.count_color_channels id ty) = none) (e : Env) (a b : GimpDrawable) :
    calls f (equal_basetypes_calls e a b) = [] := by
  unfold equal_basetypes_calls
  split <;> simp [calls_cons, calls_nil, count_color_channels_call, hf]

theorem calls_deal_with_run_mode {α : Type} (f : Event → Option α)
    (h1 : f .get_last_parameters = none) (h2 : f .gimp_message = none)
    (h3 : f .get_parameters_from_list = none) (e : Env) (d : GimpDrawable) :
    calls f (deal_with_run_mode e d).2.2 = [] := by
  unfold deal_with_run_mode
  split_ifs <;> simp [calls_cons, calls_nil, h1, h2, h3]

/-! ## The paths through `run` -/

theorem mode_ok_iff (e : Env) :
    mode_ok e ↔ ¬ ((!gimp_drawable_is_rgb e (target e).drawable_id
      && !gimp_drawable_is_gray e (target e).drawable_id) = true) := by
  unfold mode_ok
  cases gimp_drawable_is_rgb e (target e).drawable_id <;>
    cases gimp_drawable_is_gray e (target e).drawable_id <;> simp

theorem wants_map_iff (e : Env) : wants_map e ↔ with_map_of e = true := by
  simp [wants_map, with_map_of]

theorem adaption_asserts_hold_iff (e : Env) :
    adaption_asserts_hold e ↔
      ¬ ((!g_assert_not_empty e e.image) = true)
        ∧ ¬ ((!g_assert_not_empty e e.corpus) = true) := by
  unfold adaption_asserts_hold
  cases g_assert_not_empty e e.image <;> cases g_assert_not_empty e e.corpus <;> simp

theorem run_mode_fails (e : Env) (h : ¬ mode_ok e) :
    run e = ERROR_RETURN (state_267 e) msg_mode := by
  rw [mode_ok_iff, not_not] at h
  unfold run
  simp only [target] at h
  simp only [h, if_true]
  rfl

theorem run_params_fail (e : Env) (hm : mode_ok e) (h : ¬ params_ok e) :
    run e = ERROR_RETURN (state_292 e) msg_parameters := by
  rw [mode_ok_iff] at hm
  unfold params_ok at h
  unfold run
  simp only [target] at hm h
  simp only [hm, if_false, h]
  simp [state_292, state_267, target, msg_parameters]

theorem run_channels_assert (e : Env) (hm : mode_ok e) (hp : params_ok e)
    (h : equal_basetypes e (target e) (corpus_of e) = none) :
    run e = g_assert_failed (state_311 e) := by
  rw [mode_ok_iff] at hm
  unfold params_ok at hp
  unfold run
  simp only [target, corpus_of, handed, obtained] at hm hp h
  simp only [hm, if_false, hp, h]
  simp [state_311, state_292, state_267, target, corpus_of, handed, obtained]

theorem run_channels_fail (e : Env) (hm : mode_ok e) (hp : params_ok e)
    (h : equal_basetypes e (target e) (corpus_of e) = some false) :
    run e = ERROR_RETURN (state_311 e) msg_channels := by
  rw [mode_ok_iff] at hm
  unfold params_ok at hp
  unfold run
  simp only [target, corpus_of, handed, obtained] at hm hp h
  simp only [hm, if_false, hp, h]
  simp [state_311, state_292, state_267, target, corpus_of, handed, obtained, msg_channels]

theorem run_without_map (e : Env) (hm : mode_ok e) (hp : params_ok e)
    (h : equal_basetypes e (target e) (corpus_of e) = some true) (hw : with_map_of e = false) :
    run e = run_from_adaption e (state_320 e) (handed e) false (target e) (corpus_of e) := by
  rw [mode_ok_iff] at hm
  unfold params_ok at hp
  unfold run
  have hw2 := hw
  simp only [target, corpus_of, handed, obtained, with_map_of] at hm hp h hw2
  simp only [hm, if_false, hp, h, hw2]
  simp only [state_320, hw]
  simp [state_311, state_292, state_267, target, corpus_of, handed, obtained]

theorem run_with_map_eq (e : Env) (hm : mode_ok e) (hp : params_ok e)
    (h : equal_basetypes e (target e) (corpus_of e) = some true) (hw : with_map_of e = true) :
    run e = run_with_map e (state_320 e) (handed e) (target e) (corpus_of e) := by
  rw [mode_ok_iff] at hm
  unfold params_ok at hp
  unfold run
  have hw2 := hw
  simp only [target, corpus_of, handed, obtained, with_map_of] at hm hp h hw2
  simp only [hm, if_false, hp, h, hw2]
  simp only [state_320, hw]
  simp [state_311, state_292, state_267, target, corpus_of, handed, obtained]

theorem run_from_adaption_cases (e : Env) (s : State) (p : Parameters) (w : Bool)
    (d c : GimpDrawable) :
    (¬ adaption_asserts_hold e ∧
      run_from_adaption e s p w d c = g_assert_failed (state_375 s w d c))
    ∨ (adaption_asserts_hold e ∧ e.engine p = 1 ∧
      run_from_adaption e s p w d c = ERROR_RETURN (state_384 s p w d c) msg_empty_corpus)
    ∨ (adaption_asserts_hold e ∧ e.engine p = 2 ∧
      run_from_adaption e s p w d c = ERROR_RETURN (state_384 s p w d c) msg_empty_target)
    ∨ (adaption_asserts_hold e ∧ e.engine p ≠ 1 ∧ e.engine p ≠ 2 ∧
      run_from_adaption e s p w d c = success s p w d c) := by
  rw [adaption_asserts_hold_iff]
  unfold run_from_adaption
  by_cases h1 : (!g_assert_not_empty e e.image) = true
  · left; simp [h1, state_375]
  · by_cases h2 : (!g_assert_not_empty e e.corpus) = true
    · left; simp [h2, state_375]
    · right
      by_cases h3 : e.engine p = 1
      · left; simp_all [state_384, state_375, msg_empty_corpus]
      · right
        by_cases h4 : e.engine p = 2
        · left; simp_all [state_384, state_375, msg_empty_target]
        · right; simp_all [state_384, state_375, success]

theorem run_with_map_cases (e : Env) :
    (equal_basetypes e (map_in_of e) (map_out_of e) = none ∧
      run_with_map e (state_320 e) (handed e) (target e) (corpus_of e)
        = g_assert_failed (state_329 e))
    ∨ (equal_basetypes e (map_in_of e) (map_out_of e) = some false ∧
      run_with_map e (state_320 e) (handed e) (target e) (corpus_of e)
        = ERROR_RETURN (state_329 e) msg_map_mode)
    ∨ (equal_basetypes e (map_in_of e) (map_out_of e) = some true ∧ ¬ map_in_fits e ∧
      run_with_map e (state_320 e) (handed e) (target e) (corpus_of e)
        = ERROR_RETURN (state_329 e) msg_map_in_size)
    ∨ (equal_basetypes e (map_in_of e) (map_out_of e) = some true ∧ map_in_fits e ∧
        ¬ map_out_fits e ∧
      run_with_map e (state_320 e) (handed e) (target e) (corpus_of e)
        = ERROR_RETURN (state_329 e) msg_map_out_size)
    ∨ (maps_ok e ∧
      run_with_map e (state_320 e) (handed e) (target e) (corpus_of e)
        = run_from_adaption e (state_329 e) (handed e) true (target e) (corpus_of e)) := by
  unfold run_with_map maps_ok map_in_fits map_out_fits
  rcases h : equal_basetypes e (map_in_of e) (map_out_of e) with _ | b
  · left
    simp only [map_in_of, map_out_of] at h
    simp [h, state_329, map_in_of, map_out_of]
  · cases b
    · right; left
      simp only [map_in_of, map_out_of] at h
      simp [h, state_329, map_in_of, map_out_of, msg_map_mode]
    · right; right
      by_cases h1 : (map_in_of e).width = (corpus_of e).width
            ∧ (map_in_of e).height = (corpus_of e).height
      · right
        by_cases h2 : (map_out_of e).width = (target e).width
            ∧ (map_out_of e).height = (target e).height
        · right
          simp only [map_in_of, map_out_of, corpus_of, target] at h h1 h2
          simp [h, h1, h2, state_329, map_in_of, map_out_of, corpus_of, target]
        · left
          simp only [map_in_of, map_out_of, corpus_of, target] at h h1 h2
          have h2b := not_and_or.mp h2
          simp [h, h1, h2b, state_329, map_in_of, map_out_of, corpus_of, target,
            msg_map_out_size]
          exact fun ha hb => h2 ⟨ha, hb⟩
      · left
        simp only [map_in_of, map_out_of, corpus_of, target] at h h1
        have h1b := not_and_or.mp h1
        simp [h, h1b, state_329, map_in_of, map_out_of, corpus_of, target, msg_map_in_size]
        exact fun ha hb => h1 ⟨ha, hb⟩

theorem run_cases (e : Env) :
    (¬ mode_ok e ∧ run e = ERROR_RETURN (state_267 e) msg_mode)
    ∨ (mode_ok e ∧ ¬ params_ok e ∧ run e = ERROR_RETURN (state_292 e) msg_parameters)
    ∨ (mode_ok e ∧ params_ok e ∧ equal_basetypes e (target e) (corpus_of e) = none ∧
        run e = g_assert_failed (state_311 e))
    ∨ (mode_ok e ∧ params_ok e ∧ equal_basetypes e (target e) (corpus_of e) = some false ∧
        run e = ERROR_RETURN (state_311 e) msg_channels)
    ∨ (mode_ok e ∧ params_ok e ∧ channels_ok e ∧ ¬ wants_map e ∧
        run e = run_from_adaption e (state_320 e) (handed e) false (target e) (corpus_of e))
    ∨ (mode_ok e ∧ params_ok e ∧ channels_ok e ∧ wants_map e ∧
        run e = run_with_map e (state_320 e) (handed e) (target e) (corpus_of e)) := by
  by_cases hm : mode_ok e
  · by_cases hp : params_ok e
    · rcases h : equal_basetypes e (target e) (corpus_of e) with _ | b
      · exact Or.inr (Or.inr (Or.inl ⟨hm, hp, rfl, run_channels_assert e hm hp h⟩))
      · cases b
        · exact Or.inr (Or.inr (Or.inr (Or.inl ⟨hm, hp, rfl, run_channels_fail e hm hp h⟩)))
        · by_cases hw : wants_map e
          · exact Or.inr (Or.inr (Or.inr (Or.inr (Or.inr
              ⟨hm, hp, h, hw, run_with_map_eq e hm hp h ((wants_map_iff e).mp hw)⟩))))
          · have hw2 : with_map_of e = false := by
              rw [wants_map_iff] at hw
              simpa using hw
            exact Or.inr (Or.inr (Or.inr (Or.inr (Or.inl
              ⟨hm, hp, h, hw, run_without_map e hm hp h hw2⟩))))
    · exact Or.inr (Or.inl ⟨hm, hp, run_params_fail e hm hp⟩)
  · exact Or.inl ⟨hm, run_mode_fails e hm⟩

/-- Where `run` can end: the sixteen paths through it, each with the conditions that
select it and the outcome it gives. -/
theorem run_leaves (e : Env) :
    (¬ mode_ok e ∧ run e = ERROR_RETURN (state_267 e) msg_mode)
    ∨ (mode_ok e ∧ ¬ params_ok e ∧ run e = ERROR_RETURN (state_292 e) msg_parameters)
    ∨ (mode_ok e ∧ params_ok e ∧ equal_basetypes e (target e) (corpus_of e) = none ∧
        run e = g_assert_failed (state_311 e))
    ∨ (mode_ok e ∧ params_ok e ∧ equal_basetypes e (target e) (corpus_of e) = some false ∧
        run e = ERROR_RETURN (state_311 e) msg_channels)
    ∨ (mode_ok e ∧ params_ok e ∧ channels_ok e ∧ ¬ wants_map e ∧ ¬ adaption_asserts_hold e ∧
        run e = g_assert_failed (state_375 (state_320 e) false (target e) (corpus_of e)))
    ∨ (mode_ok e ∧ params_ok e ∧ channels_ok e ∧ ¬ wants_map e ∧ adaption_asserts_hold e ∧
        e.engine (handed e) = 1 ∧
        run e = ERROR_RETURN
          (state_384 (state_320 e) (handed e) false (target e) (corpus_of e)) msg_empty_corpus)
    ∨ (mode_ok e ∧ params_ok e ∧ channels_ok e ∧ ¬ wants_map e ∧ adaption_asserts_hold e ∧
        e.engine (handed e) = 2 ∧
        run e = ERROR_RETURN
          (state_384 (state_320 e) (handed e) false (target e) (corpus_of e)) msg_empty_target)
    ∨ (mode_ok e ∧ params_ok e ∧ channels_ok e ∧ ¬ wants_map e ∧ adaption_asserts_hold e ∧
        e.engine (handed e) ≠ 1 ∧ e.engine (handed e) ≠ 2 ∧
        run e = success (state_320 e) (handed e) false (target e) (corpus_of e))
    ∨ (mode_ok e ∧ params_ok e ∧ channels_ok e ∧ wants_map e ∧
        equal_basetypes e (map_in_of e) (map_out_of e) = none ∧
        run e = g_assert_failed (state_329 e))
    ∨ (mode_ok e ∧ params_ok e ∧ channels_ok e ∧ wants_map e ∧
        equal_basetypes e (map_in_of e) (map_out_of e) = some false ∧
        run e = ERROR_RETURN (state_329 e) msg_map_mode)
    ∨ (mode_ok e ∧ params_ok e ∧ channels_ok e ∧ wants_map e ∧
        equal_basetypes e (map_in_of e) (map_out_of e) = some true ∧ ¬ map_in_fits e ∧
        run e = ERROR_RETURN (state_329 e) msg_map_in_size)
    ∨ (mode_ok e ∧ params_ok e ∧ channels_ok e ∧ wants_map e ∧
        equal_basetypes e (map_in_of e) (map_out_of e) = some true ∧ map_in_fits e ∧
        ¬ map_out_fits e ∧
        run e = ERROR_RETURN (state_329 e) msg_map_out_size)
    ∨ (mode_ok e ∧ params_ok e ∧ channels_ok e ∧ wants_map e ∧ maps_ok e ∧
        ¬ adaption_asserts_hold e ∧
        run e = g_assert_failed (state_375 (state_329 e) true (target e) (corpus_of e)))
    ∨ (mode_ok e ∧ params_ok e ∧ channels_ok e ∧ wants_map e ∧ maps_ok e ∧
        adaption_asserts_hold e ∧ e.engine (handed e) = 1 ∧
        run e = ERROR_RETURN
          (state_384 (state_329 e) (handed e) true (target e) (corpus_of e)) msg_empty_corpus)
    ∨ (mode_ok e ∧ params_ok e ∧ channels_ok e ∧ wants_map e ∧ maps_ok e ∧
        adaption_asserts_hold e ∧ e.engine (handed e) = 2 ∧
        run e = ERROR_RETURN
          (state_384 (state_329 e) (handed e) true (target e) (corpus_of e)) msg_empty_target)
    ∨ (mode_ok e ∧ params_ok e ∧ channels_ok e ∧ wants_map e ∧ maps_ok e ∧
        adaption_asserts_hold e ∧ e.engine (handed e) ≠ 1 ∧ e.engine (handed e) ≠ 2 ∧
        run e = success (state_329 e) (handed e) true (target e) (corpus_of e)) := by
  rcases run_cases e with h | h | h | h | ⟨hm, hp, hc, hw, hr⟩ | ⟨hm, hp, hc, hw, hr⟩
  · exact Or.inl h
  · exact Or.inr (Or.inl h)
  · exact Or.inr (Or.inr (Or.inl h))
  · exact Or.inr (Or.inr (Or.inr (Or.inl h)))
  · rcases run_from_adaption_cases e (state_320 e) (handed e) false (target e) (corpus_of e)
      with ⟨ha, h⟩ | ⟨ha, h1, h⟩ | ⟨ha, h1, h⟩ | ⟨ha, h1, h2, h⟩
    · exact Or.inr (Or.inr (Or.inr (Or.inr (Or.inl ⟨hm, hp, hc, hw, ha, hr.trans h⟩))))
    · exact Or.inr (Or.inr (Or.inr (Or.inr (Or.inr (Or.inl
        ⟨hm, hp, hc, hw, ha, h1, hr.trans h⟩)))))
    · exact Or.inr (Or.inr (Or.inr (Or.inr (Or.inr (Or.inr (Or.inl
        ⟨hm, hp, hc, hw, ha, h1, hr.trans h⟩))))))
    · exact Or.inr (Or.inr (Or.inr (Or.inr (Or.inr (Or.inr (Or.inr (Or.inl
        ⟨hm, hp, hc, hw, ha, h1, h2, hr.trans h⟩)))))))
  · right; right; right; right; right; right; right; right
    rcases run_with_map_cases e with ⟨hq, h⟩ | ⟨hq, h⟩ | ⟨hq, h1, h⟩ | ⟨hq, h1, h2, h⟩ | ⟨hq, h⟩
    · exact Or.inl ⟨hm, hp, hc, hw, hq, hr.trans h⟩
    · exact Or.inr (Or.inl ⟨hm, hp, hc, hw, hq, hr.trans h⟩)
    · exact Or.inr (Or.inr (Or.inl ⟨hm, hp, hc, hw, hq, h1, hr.trans h⟩))
    · exact Or.inr (Or.inr (Or.inr (Or.inl ⟨hm, hp, hc, hw, hq, h1, h2, hr.trans h⟩)))
    · right; right; right; right
      rcases run_from_adaption_cases e (state_329 e) (handed e) true (target e) (corpus_of e)
        with ⟨ha, h3⟩ | ⟨ha, h1, h3⟩ | ⟨ha, h1, h3⟩ | ⟨ha, h1, h2, h3⟩
      · exact Or.inl ⟨hm, hp, hc, hw, hq, ha, (hr.trans h).trans h3⟩
      · exact Or.inr (Or.inl ⟨hm, hp, hc, hw, hq, ha, h1, (hr.trans h).trans h3⟩)
      · exact Or.inr (Or.inr (Or.inl ⟨hm, hp, hc, hw, hq, ha, h1, (hr.trans h).trans h3⟩))
      · exact Or.inr (Or.inr (Or.inr ⟨hm, hp, hc, hw, hq, ha, h1, h2, (hr.trans h).trans h3⟩))

/-- The engine is called at most once: once, with the limited parameters, when every
validation check passes and the assertions after adaption hold, and not at all otherwise. -/
theorem engine_calls_run (e : Env) :
    engine_calls (run e).state.trace
      = if all_checks_pass e ∧ adaption_asserts_hold e then [handed e] else [] := by
  rcases run_leaves e with h | h | h | h | h | h | h | h | h | h | h | h | h | h | h | h <;>
    simp_all [all_checks_pass, maps_ok, channels_ok, ERROR_RETURN, g_assert_failed, success,
      state_267, state_292, state_311, state_320, state_329, state_375, state_384,
      engine_calls, calls_cons, calls_append, calls_nil, calls_detach_drawables,
      calls_equal_basetypes_calls, calls_deal_with_run_mode, Event.engine_parameters]

/-! ## What the engine is handed -/

theorem handed_eq (e : Env) :
    handed e = { obtained e with
      neighbours := min (obtained e).neighbours e.RESYNTH_MAX_NEIGHBORS } := by
  unfold handed limit_neighbours
  split_ifs with h
  · rw [min_eq_right (le_of_lt h)]
  · rw [min_eq_left (not_lt.mp h)]

theorem handed_input_map_id (e : Env) : (handed e).input_map_id = (obtained e).input_map_id := by
  rw [handed_eq]

theorem handed_output_map_id (e : Env) :
    (handed e).output_map_id = (obtained e).output_map_id := by
  rw [handed_eq]

/-- C1: the parameters handed to `engine` are the obtained ones with `neighbours` replaced
by `min neighbours RESYNTH_MAX_NEIGHBORS`; that value never exceeds the maximum and is the
obtained one when that is already at most the maximum. The engine is handed exactly these
parameters whenever every validation check passes (and the assertions after adaption hold). -/
theorem neighbours_limited_for_engine (e : Env) :
    (∀ q ∈ engine_calls (run e).state.trace,
      params_ok e ∧
      q.neighbours = min (obtained e).neighbours e.RESYNTH_MAX_NEIGHBORS ∧
      q.neighbours ≤ e.RESYNTH_MAX_NEIGHBORS ∧
      ((obtained e).neighbours ≤ e.RESYNTH_MAX_NEIGHBORS → q = obtained e))
    ∧ (all_checks_pass e → adaption_asserts_hold e →
        engine_calls (run e).state.trace = [{ obtained e with
          neighbours := min (obtained e).neighbours e.RESYNTH_MAX_NEIGHBORS }]) := by
  rw [engine_calls_run, ← handed_eq]
  constructor
  · intro q hq
    split_ifs at hq with h
    · rw [List.mem_singleton] at hq
      subst hq
      refine ⟨h.1.2.1, ?_, ?_, ?_⟩
      · rw [handed_eq]
      · rw [handed_eq]; exact min_le_right _ _
      · intro hle
        rw [handed_eq, min_eq_left hle]
    · simp at hq
  · intro h ha
    rw [if_pos ⟨h, ha⟩]

/-- C1, at a call that obtains `neighbours = 100` with the maximum at 64. -/
theorem neighbours_limited_for_engine_witness :
    all_checks_pass env_plain ∧ adaption_asserts_hold env_plain
      ∧ (obtained env_plain).neighbours = 100
      ∧ engine_calls (run env_plain).state.trace = [params_plain_limited] :=
  ⟨by decide, by decide, by decide,
    (neighbours_limited_for_engine env_plain).2 (by decide) (by decide)⟩

/-! ## Results of the engine -/

/-- C2: when the engine has been called and returned 1, `run` returns with status
GIMP_PDB_EXECUTION_ERROR and two return values, the second the "texture source is empty"
string; when it returned 2, likewise with the "output layer is empty" string. -/
theorem engine_error_results_reported (e : Env) (q : Parameters)
    (hq : q ∈ engine_calls (run e).state.trace) :
    (e.engine q = 1 →
      (run e).ending = .returned
      ∧ (run e).state.d_status = .GIMP_PDB_EXECUTION_ERROR
      ∧ (run e).state.nreturn_vals = 2
      ∧ (run e).state.d_string = some (gettext
          "The texture source is empty. Does any selection include non-transparent pixels?"))
    ∧ (e.engine q = 2 →
      (run e).ending = .returned
      ∧ (run e).state.d_status = .GIMP_PDB_EXECUTION_ERROR
      ∧ (run e).state.nreturn_vals = 2
      ∧ (run e).state.d_string = some (gettext
          "The output layer is empty. Does any selection have visible pixels in the active layer?")) := by
  rw [engine_calls_run] at hq
  split_ifs at hq with h
  · rw [List.mem_singleton] at hq
    subst hq
    obtain ⟨⟨hm, hp, hc, hmaps⟩, ha⟩ := h
    rcases run_leaves e with h | h | h | h | h | h | h | h | h | h | h | h | h | h | h | h <;>
      simp_all [ERROR_RETURN, g_assert_failed, success, channels_ok, maps_ok,
        state_267, state_292, state_311, state_320, state_329, state_375, state_384,
        msg_empty_corpus, msg_empty_target]
  · simp at hq

/-- C2, at a call whose engine returns 1 and at one whose engine returns 2. -/
theorem engine_error_results_reported_witness :
    (params_plain_limited ∈ engine_calls (run env_empty_corpus).state.trace
      ∧ env_empty_corpus.engine params_plain_limited = 1
      ∧ (run env_empty_corpus).state.nreturn_vals = 2)
    ∧ (params_plain_limited ∈ engine_calls (run env_empty_target).state.trace
      ∧ env_empty_target.engine params_plain_limited = 2
      ∧ (run env_empty_target).state.nreturn_vals = 2) :=
  ⟨⟨by decide, by decide,
    ((engine_error_results_reported env_empty_corpus params_plain_limited (by decide)).1
      (by decide)).2.2.1⟩,
   ⟨by decide, by decide,
    ((engine_error_results_reported env_empty_target params_plain_limited (by decide)).2
      (by decide)).2.2.1⟩⟩

/-! ## The colour-channel check -/

theorem count_color_channels_rgb_or_gray (e : Env) (d : GimpDrawable)
    (h : rgb_or_gray (e.gimp_drawable_type d.drawable_id)) :
    count_color_channels e d =
      some (if without_alpha (e.gimp_drawable_type d.drawable_id) = .GIMP_RGB_IMAGE
        then 3 else 1) := by
  unfold count_color_channels
  rcases h with h | h | h | h <;> rw [h] <;> simp [without_alpha]


theorem equal_basetypes_of_counts (e : Env) (d1 d2 : GimpDrawable) (a b : Nat)
    (h1 : count_color_channels e d1 = some a) (h2 : count_color_channels e d2 = some b) :
    equal_basetypes e d1 d2 = some (decide (a = b)) := by
  unfold equal_basetypes
  rw [h1, h2]

theorem counts_of_equal_basetypes (e : Env) (d1 d2 : GimpDrawable)
    (h : equal_basetypes e d1 d2 = some true) :
    ∃ n, count_color_channels e d1 = some n ∧ count_color_channels e d2 = some n := by
  unfold equal_basetypes at h
  cases h1 : count_color_channels e d1 with
  | none => simp [h1] at h
  | some a =>
    cases h2 : count_color_channels e d2 with
    | none => simp [h1, h2] at h
    | some b =>
      simp [h1, h2] at h
      exact ⟨a, rfl, by rw [h]⟩

/-- When the colour-channel check has passed, the message of line 313 is not returned. -/
theorem no_channels_message_of_channels_ok (e : Env) (hc : channels_ok e) :
    (run e).state.d_string ≠ some msg_channels := by
  rcases run_leaves e with h | h | h | h | h | h | h | h | h | h | h | h | h | h | h | h <;>
    simp_all [ERROR_RETURN, g_assert_failed, success, channels_ok,
      state_267, state_292, state_311, state_320, state_329, state_375, state_384,
      msg_mode, msg_parameters, msg_channels, msg_map_mode, msg_map_in_size,
      msg_map_out_size, msg_empty_corpus, msg_empty_target, gettext]

theorem rgb_or_gray_of_mode_ok (e : Env) (h : mode_ok e) :
    rgb_or_gray (e.gimp_drawable_type (target e).drawable_id) := by
  unfold mode_ok gimp_drawable_is_rgb gimp_drawable_is_gray at h
  unfold rgb_or_gray
  cases ht : e.gimp_drawable_type (target e).drawable_id <;> simp [ht] at h ⊢

theorem rgb_or_gray_of_without_alpha (t1 t2 : GimpImageType) (h1 : rgb_or_gray t1)
    (h : without_alpha t1 = without_alpha t2) : rgb_or_gray t2 := by
  unfold rgb_or_gray at h1 ⊢
  cases t1 <;> cases t2 <;> simp [without_alpha] at h1 h ⊢

theorem equal_basetypes_rgb_or_gray (e : Env) (d1 d2 : GimpDrawable)
    (h1 : rgb_or_gray (e.gimp_drawable_type d1.drawable_id))
    (h2 : rgb_or_gray (e.gimp_drawable_type d2.drawable_id)) :
    equal_basetypes e d1 d2 = some (decide
      (without_alpha (e.gimp_drawable_type d1.drawable_id)
        = without_alpha (e.gimp_drawable_type d2.drawable_id))) := by
  rw [equal_basetypes_of_counts e d1 d2 _ _ (count_color_channels_rgb_or_gray e d1 h1)
    (count_color_channels_rgb_or_gray e d2 h2)]
  unfold rgb_or_gray at h1 h2
  rcases h1 with h1 | h1 | h1 | h1 <;> rcases h2 with h2 | h2 | h2 | h2 <;>
    simp [h1, h2, without_alpha]

/-- What holds of the colour-channel check wherever `count_color_channels` returns:
it is 3 on RGB and RGBA and 1 on GRAY and GRAYA, so
`equal_basetypes` of two such drawables holds exactly when they agree up to alpha. Once the
image-mode and parameter checks have passed, the engine is called only when the counts of
target and corpus are equal; when both counts exist and differ, `run` returns the
"same number of color channels" error and the engine is not called; when they are equal,
and so for an RGB target with an RGBA corpus, that error is not returned. -/
theorem channel_count_check (e : Env) :
    (∀ d, (e.gimp_drawable_type d.drawable_id = .GIMP_RGB_IMAGE
          ∨ e.gimp_drawable_type d.drawable_id = .GIMP_RGBA_IMAGE)
        → count_color_channels e d = some 3)
    ∧ (∀ d, (e.gimp_drawable_type d.drawable_id = .GIMP_GRAY_IMAGE
          ∨ e.gimp_drawable_type d.drawable_id = .GIMP_GRAYA_IMAGE)
        → count_color_channels e d = some 1)
    ∧ (∀ d1 d2, rgb_or_gray (e.gimp_drawable_type d1.drawable_id)
        → rgb_or_gray (e.gimp_drawable_type d2.drawable_id)
        → (equal_basetypes e d1 d2 = some true ↔
            without_alpha (e.gimp_drawable_type d1.drawable_id)
              = without_alpha (e.gimp_drawable_type d2.drawable_id))
          ∧ (equal_basetypes e d1 d2 = some false ↔
            without_alpha (e.gimp_drawable_type d1.drawable_id)
              ≠ without_alpha (e.gimp_drawable_type d2.drawable_id)))
    ∧ (mode_ok e → params_ok e →
        (engine_calls (run e).state.trace ≠ [] →
          ∃ n, count_color_channels e (target e) = some n
            ∧ count_color_channels e (corpus_of e) = some n)
        ∧ (∀ a b, count_color_channels e (target e) = some a
            → count_color_channels e (corpus_of e) = some b → a ≠ b
            → (run e).ending = .returned
              ∧ (run e).state.d_status = .GIMP_PDB_EXECUTION_ERROR
              ∧ (run e).state.nreturn_vals = 2
              ∧ (run e).state.d_string = some (gettext
                "The input texture and output image must have the same number of color channels.")
              ∧ engine_calls (run e).state.trace = [])
        ∧ (∀ a b, count_color_channels e (target e) = some a
            → count_color_channels e (corpus_of e) = some b → a = b
            → (run e).state.d_string ≠ some (gettext
                "The input texture and output image must have the same number of color channels."))
        ∧ (without_alpha (e.gimp_drawable_type (target e).drawable_id)
              = without_alpha (e.gimp_drawable_type (corpus_of e).drawable_id)
            → (run e).state.d_string ≠ some (gettext
                "The input texture and output image must have the same number of color channels."))) := by
  refine ⟨?_, ?_, ?_, ?_⟩
  · rintro d (h | h) <;> simp [count_color_channels, h]
  · rintro d (h | h) <;> simp [count_color_channels, h]
  · intro d1 d2 h1 h2
    rw [equal_basetypes_rgb_or_gray e d1 d2 h1 h2]
    simp
  · intro hm hp
    refine ⟨?_, ?_, ?_, ?_⟩
    · intro hne
      rw [engine_calls_run] at hne
      split_ifs at hne with h
      · exact counts_of_equal_basetypes e _ _ h.1.2.2.1
      · exact absurd rfl hne
    · intro a b ha hb hab
      have heq := equal_basetypes_of_counts e _ _ a b ha hb
      rw [decide_eq_false hab] at heq
      rw [engine_calls_run, run_channels_fail e hm hp heq]
      have hnot : ¬ (all_checks_pass e ∧ adaption_asserts_hold e) := by
        intro h
        have hc := h.1.2.2.1
        unfold channels_ok at hc
        rw [heq] at hc
        simp at hc
      simp [ERROR_RETURN, state_311, state_292, state_267, msg_channels, hnot]
    · intro a b ha hb hab
      have heq := equal_basetypes_of_counts e _ _ a b ha hb
      rw [decide_eq_true hab] at heq
      exact no_channels_message_of_channels_ok e heq
    · intro hw
      have h1 := rgb_or_gray_of_mode_ok e hm
      have h2 := rgb_or_gray_of_without_alpha _ _ h1 hw
      have heq := equal_basetypes_rgb_or_gray e (target e) (corpus_of e) h1 h2
      rw [decide_eq_true hw] at heq
      exact no_channels_message_of_channels_ok e heq

/-- The colour-channel check at an RGB target with a grayscale corpus (rejected) and with
an RGBA corpus (not rejected). -/
theorem channel_count_check_witness :
    (mode_ok env_gray_corpus ∧ params_ok env_gray_corpus
      ∧ count_color_channels env_gray_corpus (target env_gray_corpus) = some 3
      ∧ count_color_channels env_gray_corpus (corpus_of env_gray_corpus) = some 1
      ∧ engine_calls (run env_gray_corpus).state.trace = [])
    ∧ (mode_ok env_plain ∧ params_ok env_plain
      ∧ env_plain.gimp_drawable_type (target env_plain).drawable_id = .GIMP_RGB_IMAGE
      ∧ env_plain.gimp_drawable_type (corpus_of env_plain).drawable_id = .GIMP_RGBA_IMAGE
      ∧ (run env_plain).state.d_string ≠ some (gettext
          "The input texture and output image must have the same number of color channels.")) :=
  ⟨⟨by decide, by decide, by decide, by decide,
    (((channel_count_check env_gray_corpus).2.2.2 (by decide) (by decide)).2.1 3 1
      (by decide) (by decide) (by decide)).2.2.2.2⟩,
   ⟨by decide, by decide, by decide, by decide,
    ((channel_count_check env_plain).2.2.2 (by decide) (by decide)).2.2.2 (by decide)⟩⟩

/-! ## A single map is ignored -/

theorem not_wants_map_of_obtained (e : Env)
    (h : (obtained e).input_map_id = -1 ∨ (obtained e).output_map_id = -1) :
    ¬ wants_map e := by
  unfold wants_map
  rw [handed_input_map_id, handed_output_map_id]
  rcases h with h | h <;> simp [h]

/-- C7: when the input map id or the output map id (or both) is -1, `with_map` is never
true (it is false once line 317 is reached), both map pointers stay NULL, only the target
and, after it, the corpus are fetched, none of the three map messages is returned, and the
run goes on past validation into the adaption and the engine exactly when the image-mode,
parameter and colour-channel checks pass; with the assertions after adaption holding, that
is exactly when the engine is called. -/
theorem single_map_ignored (e : Env)
    (h : (obtained e).input_map_id = -1 ∨ (obtained e).output_map_id = -1) :
    (run e).state.with_map ≠ some true
    ∧ (mode_ok e ∧ params_ok e ∧ channels_ok e → (run e).state.with_map = some false)
    ∧ (run e).state.map_in_drawable = none
    ∧ (run e).state.map_out_drawable = none
    ∧ (gimp_drawable_get_calls (run e).state.trace = [e.param2_d_drawable]
        ∨ gimp_drawable_get_calls (run e).state.trace
            = [e.param2_d_drawable, (obtained e).corpus_id])
    ∧ (run e).state.d_string
        ≠ some (gettext "The input and output maps must have the same mode")
    ∧ (run e).state.d_string
        ≠ some (gettext "The input map should be the same size as the input texture image")
    ∧ (run e).state.d_string
        ≠ some (gettext "The output map should be the same size as the output image")
    ∧ (adaption_calls (run e).state.trace ≠ [] ↔ mode_ok e ∧ params_ok e ∧ channels_ok e)
    ∧ (adaption_asserts_hold e →
        (engine_calls (run e).state.trace ≠ [] ↔ mode_ok e ∧ params_ok e ∧ channels_ok e)) := by
  have hw := not_wants_map_of_obtained e h
  have hw2 : with_map_of e = false := by
    rw [wants_map_iff] at hw
    simpa using hw
  have hcorpus : (handed e).corpus_id = (obtained e).corpus_id := by rw [handed_eq]
  rcases run_leaves e with h | h | h | h | h | h | h | h | h | h | h | h | h | h | h | h <;>
    simp_all [ERROR_RETURN, g_assert_failed, success, channels_ok,
      state_267, state_292, state_311, state_320, state_329, state_375, state_384,
      msg_mode, msg_parameters, msg_channels, msg_map_mode, msg_map_in_size,
      msg_map_out_size, msg_empty_corpus, msg_empty_target, gettext,
      engine_calls, gimp_drawable_get_calls, adaption_calls,
      calls_cons, calls_append, calls_nil, calls_detach_drawables,
      calls_equal_basetypes_calls, calls_deal_with_run_mode,
      Event.engine_parameters, Event.fetched_id, Event.adaption_flag]

/-- C7, at a call that names an input map and no output map. -/
theorem single_map_ignored_witness :
    ((obtained env_one_map).input_map_id = 12 ∧ (obtained env_one_map).output_map_id = -1)
    ∧ (run env_one_map).state.map_in_drawable = none
    ∧ (run env_one_map).state.map_out_drawable = none
    ∧ engine_calls (run env_one_map).state.trace ≠ [] :=
  ⟨by decide,
   (single_map_ignored env_one_map (Or.inr (by decide))).2.2.1,
   (single_map_ignored env_one_map (Or.inr (by decide))).2.2.2.1,
   ((single_map_ignored env_one_map (Or.inr (by decide))).2.2.2.2.2.2.2.2.2 (by decide)).mpr
     (by decide)⟩

/-! ## The reported status -/

/-- Lines 386-394 test the result of the engine for 1 and 2 only: were it 3, `run` would
return GIMP_PDB_SUCCESS with one return value. -/
theorem success_on_engine_result_3 :
    all_checks_pass env_engine_3 ∧ adaption_asserts_hold env_engine_3
    ∧ engine_calls (run env_engine_3).state.trace = [params_plain_limited]
    ∧ env_engine_3.engine params_plain_limited = 3
    ∧ env_engine_3.engine params_plain_limited ≠ 0
    ∧ (run env_engine_3).ending = .returned
    ∧ (run env_engine_3).state.d_status = .GIMP_PDB_SUCCESS
    ∧ (run env_engine_3).state.nreturn_vals = 1 := by
  decide

/-- The status for an arbitrary engine: it is GIMP_PDB_SUCCESS exactly when every validation
check passed, the assertions after adaption held and the engine returned a value other than
1 and 2; then `run` returns with one return value. In every other case the status is
GIMP_PDB_EXECUTION_ERROR; an engine result of 1 or 2 makes `run` return it with two return
values, and a failed check leaves the engine uncalled. -/
theorem status_of_run (e : Env) :
    ((run e).state.d_status = .GIMP_PDB_SUCCESS ↔
      all_checks_pass e ∧ adaption_asserts_hold e
        ∧ e.engine (handed e) ≠ 1 ∧ e.engine (handed e) ≠ 2)
    ∧ ((run e).state.d_status = .GIMP_PDB_SUCCESS →
        (run e).ending = .returned ∧ (run e).state.nreturn_vals = 1
          ∧ engine_calls (run e).state.trace = [handed e])
    ∧ ((run e).state.d_status ≠ .GIMP_PDB_SUCCESS →
        (run e).state.d_status = .GIMP_PDB_EXECUTION_ERROR)
    ∧ (∀ q ∈ engine_calls (run e).state.trace, (e.engine q = 1 ∨ e.engine q = 2) →
        (run e).ending = .returned
          ∧ (run e).state.d_status = .GIMP_PDB_EXECUTION_ERROR
          ∧ (run e).state.nreturn_vals = 2)
    ∧ (¬ all_checks_pass e →
        (run e).state.d_status = .GIMP_PDB_EXECUTION_ERROR
          ∧ engine_calls (run e).state.trace = [])
    ∧ ((e.engine (handed e) = 0 ∨ e.engine (handed e) = 1 ∨ e.engine (handed e) = 2) →
        ((run e).state.d_status = .GIMP_PDB_SUCCESS ↔
          all_checks_pass e ∧ adaption_asserts_hold e ∧ e.engine (handed e) = 0)) := by
  rcases run_leaves e with h | h | h | h | h | h | h | h | h | h | h | h | h | h | h | h <;>
    simp_all [all_checks_pass, maps_ok, ERROR_RETURN, g_assert_failed, success, channels_ok,
      state_267, state_292, state_311, state_320, state_329, state_375, state_384,
      engine_calls, calls_cons, calls_append, calls_nil, calls_detach_drawables,
      calls_equal_basetypes_calls, calls_deal_with_run_mode, Event.engine_parameters]

/-- C5: for an engine that keeps to its results 0, 1 and 2, `run` returns
GIMP_PDB_SUCCESS, with exactly one return value, if and only if every validation check
passed and the engine was called and returned 0; in every other case, and so whenever the
engine returned something other than 0, the status is GIMP_PDB_EXECUTION_ERROR. -/
theorem success_iff_checks_pass_and_engine_returned_0 (e : Env) (hc : engine_contract e) :
    (((run e).ending = .returned ∧ (run e).state.d_status = .GIMP_PDB_SUCCESS
        ∧ (run e).state.nreturn_vals = 1) ↔
      all_checks_pass e ∧ ∃ q ∈ engine_calls (run e).state.trace, e.engine q = 0)
    ∧ ((run e).state.d_status = .GIMP_PDB_SUCCESS ↔
      all_checks_pass e ∧ ∃ q ∈ engine_calls (run e).state.trace, e.engine q = 0)
    ∧ ((run e).state.d_status ≠ .GIMP_PDB_SUCCESS →
        (run e).state.d_status = .GIMP_PDB_EXECUTION_ERROR)
    ∧ (∀ q ∈ engine_calls (run e).state.trace, e.engine q ≠ 0 →
        (run e).ending = .returned
          ∧ (run e).state.d_status = .GIMP_PDB_EXECUTION_ERROR
          ∧ (run e).state.nreturn_vals = 2)
    ∧ (¬ all_checks_pass e → (run e).state.d_status = .GIMP_PDB_EXECUTION_ERROR) := by
  obtain ⟨hiff, hret, herr, hbad, hfail, _⟩ := status_of_run e
  have hcall : (∃ q ∈ engine_calls (run e).state.trace, e.engine q = 0) ↔
      (all_checks_pass e ∧ adaption_asserts_hold e) ∧ e.engine (handed e) = 0 := by
    rw [engine_calls_run]
    split_ifs with h
    · simp [h]
    · simp [h]
  have hzero : e.engine (handed e) = 0 ↔
      e.engine (handed e) ≠ 1 ∧ e.engine (handed e) ≠ 2 := by
    rcases hc (handed e) with h | h | h <;> simp [h]
  have hstatus : (run e).state.d_status = .GIMP_PDB_SUCCESS ↔
      all_checks_pass e ∧ ∃ q ∈ engine_calls (run e).state.trace, e.engine q = 0 := by
    constructor
    · intro h
      obtain ⟨h1, h2, h3, h4⟩ := hiff.mp h
      exact ⟨h1, hcall.mpr ⟨⟨h1, h2⟩, hzero.mpr ⟨h3, h4⟩⟩⟩
    · rintro ⟨h1, h2⟩
      obtain ⟨⟨_, h3⟩, h4⟩ := hcall.mp h2
      exact hiff.mpr ⟨h1, h3, (hzero.mp h4).1, (hzero.mp h4).2⟩
  refine ⟨?_, hstatus, herr, ?_, fun h => (hfail h).1⟩
  · rw [← hstatus]
    exact ⟨fun h => h.2.1, fun h => ⟨(hret h).1, h, (hret h).2.1⟩⟩
  · intro q hq hne
    refine hbad q hq ?_
    rcases hc q with h | h | h
    · exact absurd h hne
    · exact Or.inl h
    · exact Or.inr h

/-- C5, at a call whose engine returns 0 and at one whose engine returns 1. -/
theorem success_iff_checks_pass_and_engine_returned_0_witness :
    (engine_contract env_plain
      ∧ all_checks_pass env_plain
      ∧ params_plain_limited ∈ engine_calls (run env_plain).state.trace
      ∧ env_plain.engine params_plain_limited = 0
      ∧ (run env_plain).ending = .returned
      ∧ (run env_plain).state.d_status = .GIMP_PDB_SUCCESS
      ∧ (run env_plain).state.nreturn_vals = 1)
    ∧ (engine_contract env_empty_corpus
      ∧ params_plain_limited ∈ engine_calls (run env_empty_corpus).state.trace
      ∧ env_empty_corpus.engine params_plain_limited ≠ 0
      ∧ (run env_empty_corpus).state.d_status = .GIMP_PDB_EXECUTION_ERROR) :=
  ⟨⟨fun _ => Or.inl rfl, by decide, by decide, by decide,
    ((success_iff_checks_pass_and_engine_returned_0 env_plain (fun _ => Or.inl rfl)).1).mpr
      ⟨by decide, params_plain_limited, by decide, by decide⟩⟩,
   ⟨fun _ => Or.inr (Or.inl rfl), by decide, by decide,
    ((success_iff_checks_pass_and_engine_returned_0 env_empty_corpus
        (fun _ => Or.inr (Or.inl rfl))).2.2.2.1
      params_plain_limited (by decide) (by decide)).2.1⟩⟩

/-! ## Drawables that `count_color_channels` has no case for -/

/-- C8: with an RGB target, which passes the image-mode check, and a corpus of type INDEXED,
`count_color_channels` is called on the corpus: its default branch is reached. With
assertions compiled in the run ends there; with `G_DISABLE_ASSERT` the call returns 0. -/
theorem indexed_corpus_reaches_default_branch :
    mode_ok env_indexed_corpus ∧ params_ok env_indexed_corpus
    ∧ (11, GimpImageType.GIMP_INDEXED_IMAGE)
        ∈ count_color_channels_calls (run env_indexed_corpus).state.trace
    ∧ ¬ rgb_or_gray GimpImageType.GIMP_INDEXED_IMAGE
    ∧ count_color_channels env_indexed_corpus (corpus_of env_indexed_corpus) = none
    ∧ (run env_indexed_corpus).ending = .assertion_failed
    ∧ (11, GimpImageType.GIMP_INDEXED_IMAGE)
        ∈ count_color_channels_calls (run env_indexed_corpus_release).state.trace
    ∧ count_color_channels env_indexed_corpus_release (corpus_of env_indexed_corpus_release)
        = some 0 := by
  decide

/-- C3: with an RGB target and a corpus of type INDEXED, which pass the image-mode and
parameter checks and do not have the same base type, and assertions compiled in, `run`
ends in the assertion of `count_color_channels` at line 311: the "same number of color
channels" error is not returned. With `G_DISABLE_ASSERT` it is. -/
theorem indexed_corpus_gets_no_channels_message :
    mode_ok env_indexed_corpus ∧ params_ok env_indexed_corpus
    ∧ env_indexed_corpus.gimp_drawable_type (target env_indexed_corpus).drawable_id
        = .GIMP_RGB_IMAGE
    ∧ env_indexed_corpus.gimp_drawable_type (corpus_of env_indexed_corpus).drawable_id
        = .GIMP_INDEXED_IMAGE
    ∧ without_alpha (env_indexed_corpus.gimp_drawable_type
          (target env_indexed_corpus).drawable_id)
        ≠ without_alpha (env_indexed_corpus.gimp_drawable_type
          (corpus_of env_indexed_corpus).drawable_id)
    ∧ equal_basetypes env_indexed_corpus (target env_indexed_corpus)
        (corpus_of env_indexed_corpus) = none
    ∧ (run env_indexed_corpus).ending = .assertion_failed
    ∧ (run env_indexed_corpus).state.nreturn_vals = 1
    ∧ (run env_indexed_corpus).state.d_string = none
    ∧ engine_calls (run env_indexed_corpus).state.trace = []
    ∧ (run env_indexed_corpus_release).ending = .returned
    ∧ (run env_indexed_corpus_release).state.nreturn_vals = 2
    ∧ (run env_indexed_corpus_release).state.d_string = some (gettext
        "The input texture and output image must have the same number of color channels.") := by
  decide

/-- C4: with both maps given, an input map of type INDEXED whose size differs from the
corpus, and assertions compiled in, `run` ends in the assertion of `count_color_channels`:
it returns no error message. With `G_DISABLE_ASSERT` it returns one. -/
theorem indexed_input_map_ends_in_assertion :
    wants_map env_indexed_input_map
    ∧ mode_ok env_indexed_input_map ∧ params_ok env_indexed_input_map
    ∧ channels_ok env_indexed_input_map
    ∧ ¬ map_in_fits env_indexed_input_map
    ∧ env_indexed_input_map.gimp_drawable_type (map_in_of env_indexed_input_map).drawable_id
        = .GIMP_INDEXED_IMAGE
    ∧ (run env_indexed_input_map).ending = .assertion_failed
    ∧ (run env_indexed_input_map).state.nreturn_vals = 1
    ∧ (run env_indexed_input_map).state.d_string = none
    ∧ engine_calls (run env_indexed_input_map).state.trace = []
    ∧ (run env_indexed_input_map_release).ending = .returned
    ∧ (run env_indexed_input_map_release).state.nreturn_vals = 2
    ∧ (run env_indexed_input_map_release).state.d_string
        = some (gettext "The input and output maps must have the same mode") := by
  decide

/-- C6: with a GRAY input map and an INDEXED output map, which differ in mode, the input map
also differing in size from the corpus, and assertions compiled in, `run` ends in the
assertion of `count_color_channels`: the "same mode" message is not returned. With
`G_DISABLE_ASSERT` it is. -/
theorem maps_differing_in_mode_and_size_end_in_assertion :
    wants_map env_maps_differ
    ∧ mode_ok env_maps_differ ∧ params_ok env_maps_differ ∧ channels_ok env_maps_differ
    ∧ env_maps_differ.gimp_drawable_type (map_in_of env_maps_differ).drawable_id
        = .GIMP_GRAY_IMAGE
    ∧ env_maps_differ.gimp_drawable_type (map_out_of env_maps_differ).drawable_id
        = .GIMP_INDEXED_IMAGE
    ∧ ¬ map_in_fits env_maps_differ
    ∧ (run env_maps_differ).ending = .assertion_failed
    ∧ (run env_maps_differ).state.nreturn_vals = 1
    ∧ (run env_maps_differ).state.d_string = none
    ∧ (run env_maps_differ_release).ending = .returned
    ∧ (run env_maps_differ_release).state.d_string
        = some (gettext "The input and output maps must have the same mode") := by
  decide

/-! ## What holds of the validation outside the assertion -/

theorem count_color_channels_isSome (e : Env) (d : GimpDrawable)
    (h : e.G_DISABLE_ASSERT = true ∨ rgb_or_gray (e.gimp_drawable_type d.drawable_id)) :
    ∃ n, count_color_channels e d = some n := by
  rcases h with h | h
  · unfold count_color_channels
    cases e.gimp_drawable_type d.drawable_id <;> simp [h]
  · exact ⟨_, count_color_channels_rgb_or_gray e d h⟩

theorem equal_basetypes_ne_none (e : Env) (d1 d2 : GimpDrawable)
    (h1 : e.G_DISABLE_ASSERT = true ∨ rgb_or_gray (e.gimp_drawable_type d1.drawable_id))
    (h2 : e.G_DISABLE_ASSERT = true ∨ rgb_or_gray (e.gimp_drawable_type d2.drawable_id)) :
    equal_basetypes e d1 d2 ≠ none := by
  obtain ⟨a, ha⟩ := count_color_channels_isSome e d1 h1
  obtain ⟨b, hb⟩ := count_color_channels_isSome e d2 h2
  rw [equal_basetypes_of_counts e d1 d2 a b ha hb]
  simp

/-- The first call of `count_color_channels`, on the target, is on an RGB or grayscale
drawable and returns 3 or 1. -/
theorem target_count_defined (e : Env) (hm : mode_ok e) :
    count_color_channels e (target e) = some 3 ∨ count_color_channels e (target e) = some 1 := by
  rw [count_color_channels_rgb_or_gray e _ (rgb_or_gray_of_mode_ok e hm)]
  split_ifs <;> simp

/-- A run returns, rather than ending in an assertion, in a build with `G_DISABLE_ASSERT`,
and in any build when the corpus and the maps are RGB or grayscale and the adapted image
and corpus are not empty. -/
theorem run_returns (e : Env)
    (h : e.G_DISABLE_ASSERT = true ∨
      (rgb_or_gray (e.gimp_drawable_type (corpus_of e).drawable_id)
        ∧ rgb_or_gray (e.gimp_drawable_type (map_in_of e).drawable_id)
        ∧ rgb_or_gray (e.gimp_drawable_type (map_out_of e).drawable_id)
        ∧ adaption_asserts_hold e)) :
    (run e).ending = .returned := by
  have hassert : adaption_asserts_hold e := by
    rcases h with h | h
    · simp [adaption_asserts_hold, g_assert_not_empty, h]
    · exact h.2.2.2
  have hmaps : equal_basetypes e (map_in_of e) (map_out_of e) ≠ none :=
    equal_basetypes_ne_none e _ _ (h.imp id fun h => h.2.1) (h.imp id fun h => h.2.2.1)
  have hcorpus : mode_ok e → equal_basetypes e (target e) (corpus_of e) ≠ none := fun hm =>
    equal_basetypes_ne_none e _ _ (Or.inr (rgb_or_gray_of_mode_ok e hm))
      (h.imp id fun h => h.1)
  rcases run_leaves e with h | h | h | h | h | h | h | h | h | h | h | h | h | h | h | h <;>
    simp_all [ERROR_RETURN, g_assert_failed, success]

/-- What holds of the map checks whatever the drawables are: with both maps given, the
engine is called only when the maps have equal colour-channel counts and fit the corpus and the
target; when one of these fails the engine is not called, and `run`, if it returns, returns
two values with one of the three map messages or an earlier one. -/
theorem map_checks_guard_engine (e : Env) (hw : wants_map e) :
    (engine_calls (run e).state.trace ≠ [] → maps_ok e)
    ∧ (¬ maps_ok e →
        engine_calls (run e).state.trace = []
        ∧ (run e).state.d_status = .GIMP_PDB_EXECUTION_ERROR
        ∧ ((run e).ending = .returned →
            (run e).state.nreturn_vals = 2 ∧ ∃ m, (run e).state.d_string = some m)) := by
  rcases run_leaves e with h | h | h | h | h | h | h | h | h | h | h | h | h | h | h | h <;>
    simp_all [maps_ok, ERROR_RETURN, g_assert_failed, success, channels_ok,
      state_267, state_292, state_311, state_320, state_329, state_375, state_384,
      engine_calls, calls_cons, calls_append, calls_nil, calls_detach_drawables,
      calls_equal_basetypes_calls, calls_deal_with_run_mode, Event.engine_parameters]

/-- What holds of the order of the checks whatever the drawables are: when the checks,
taken in the listed order, have an earliest failing one before any that ends in the assertion, `run`
returns two values with the message of that check and does not call the engine. -/
theorem first_failing_check_reported (e : Env) (m : Translated)
    (h : first_failing (validation_checks e) = some m) :
    (run e).ending = .returned
    ∧ (run e).state.nreturn_vals = 2
    ∧ (run e).state.d_string = some m
    ∧ (run e).state.d_status = .GIMP_PDB_EXECUTION_ERROR
    ∧ engine_calls (run e).state.trace = [] := by
  have hwm := wants_map_iff e
  unfold validation_checks at h
  rcases run_leaves e with h | h | h | h | h | h | h | h | h | h | h | h | h | h | h | h <;>
    simp_all [first_failing, maps_ok, ERROR_RETURN, g_assert_failed, success, channels_ok,
      state_267, state_292, state_311, state_320, state_329, state_375, state_384,
      engine_calls, calls_cons, calls_append, calls_nil, calls_detach_drawables,
      calls_equal_basetypes_calls, calls_deal_with_run_mode, Event.engine_parameters]

end Resynthesizer
